import Mathlib

/-!
Verification of the ALB Rule reconciliation core (pkg/alb/rule.go).

Shallow embedding of the Go source: the elbv2 pointer-structs are modelled
as Lean structures; pointer fields that the code dereferences unconditionally
(IsDefault, Priority) are modelled as plain fields, genuinely optional
pointers (RuleArn, TargetGroupArn, the current/desired snapshots) as Option.
The AWS API client (awsutil.ALBsvc) is modelled as a record of functions
passed in explicitly; every effectful operation returns its error result,
the updated Rule (Go mutates the receiver in place), and the list of
provider API calls it issued, in order.
-/

namespace alb

/-- Condition model: a field and value clause of an elbv2.RuleCondition. -/
structure RuleCondition where
  Field : String
  Values : List String
deriving Repr, DecidableEq

/-- Forward action of an elbv2.Action; the Go field named Type is rendered
here as ActionType. -/
structure Action where
  TargetGroupArn : Option String
  ActionType : String
deriving Repr, DecidableEq

/-- Snapshot of an elbv2.Rule. IsDefault and Priority are pointer fields in
Go but are dereferenced unconditionally wherever rule.go reads them, so they
are modelled as plain fields. -/
structure ELBV2Rule where
  RuleArn : Option String
  IsDefault : Bool
  Priority : String
  Conditions : List RuleCondition
  Actions : List Action
deriving Repr, DecidableEq

/-- The Rule entity of pkg/alb/rule.go: paired current/desired snapshots,
the service name, and the deleted marker. The logger field carries no
semantics and is omitted. -/
structure Rule where
  CurrentRule : Option ELBV2Rule
  DesiredRule : Option ELBV2Rule
  svcName : String
  deleted : Bool
deriving Repr, DecidableEq

/-- Current snapshot of a target group (only the field rule.go reads). -/
structure TargetGroupSnapshot where
  TargetGroupArn : Option String
deriving Repr, DecidableEq

/-- A target-group record in the externally owned collection. -/
structure TargetGroup where
  SvcName : String
  CurrentTargetGroup : TargetGroupSnapshot
deriving Repr, DecidableEq

abbrev TargetGroups := List TargetGroup

/-- Current snapshot of a listener (only the field rule.go reads). -/
structure ListenerSnapshot where
  ListenerArn : Option String
deriving Repr, DecidableEq

/-- The parent Listener handed to Reconcile. -/
structure Listener where
  CurrentListener : ListenerSnapshot
deriving Repr, DecidableEq

/-- The load balancer as seen from rule.go: its target-group collection. -/
structure LoadBalancer where
  TargetGroups : TargetGroups
deriving Repr, DecidableEq

/-- The reconcile-time context. The event sink (Eventf) is a fire-and-forget
notification and never influences control flow, so it is not modelled. -/
structure ReconcileOptions where
  loadbalancer : LoadBalancer
deriving Repr, DecidableEq

/-- Input of the provider DeleteRule call. -/
structure DeleteRuleInput where
  RuleArn : Option String
deriving Repr, DecidableEq

/-- Input of the provider CreateRule call. -/
structure CreateRuleInput where
  Actions : List Action
  Conditions : List RuleCondition
  ListenerArn : Option String
  Priority : Int
deriving Repr, DecidableEq

/-- Output of the provider CreateRule call. -/
structure CreateRuleOutput where
  Rules : List ELBV2Rule
deriving Repr, DecidableEq

/-- A provider API request issued during reconciliation. -/
inductive ApiCall where
  | createRule (input : CreateRuleInput)
  | deleteRule (input : DeleteRuleInput)
deriving Repr, DecidableEq

/-- The AWS API client (awsutil.ALBsvc), injected as an explicit record of
operations so reconciliation can be reasoned about with substitutable
providers. -/
structure AWSProvider where
  createRule : CreateRuleInput → Except String CreateRuleOutput
  deleteRule : DeleteRuleInput → Except String Unit

/-! ## Priority codec -/

/-- Error kinds of strconv.ParseInt: invalid digits, or out of int64 range. -/
inductive ParseErr where
  | invalidDigits
  | outOfRange
deriving Repr, DecidableEq

def int64Max : Int := 2 ^ 63 - 1

def int64Min : Int := -(2 ^ 63)

/-- Value of a decimal digit character, none for a non-digit. -/
def decDigitVal (c : Char) : Option Nat :=
  if c.isDigit then some (c.toNat - 48) else none

/-- One step of decimal accumulation; a non-digit poisons the parse. -/
def parseStep (acc : Option Nat) (c : Char) : Option Nat :=
  match acc, decDigitVal c with
  | some a, some d => some (a * 10 + d)
  | _, _ => none

/-- Parse a non-empty all-digit character run as a natural number. -/
def decNat? (cs : List Char) : Option Nat :=
  if cs.isEmpty then none else cs.foldl parseStep (some 0)

/-- Strip one leading sign character, reporting whether it was a minus. -/
def stripSign : List Char → Bool × List Char
  | [] => (false, [])
  | c :: rest =>
    if c = '-' then (true, rest)
    else if c = '+' then (false, rest)
    else (false, c :: rest)

/-- Model of strconv.ParseInt with base 10 and bitSize 64: returns the
parsed value together with the error, because the Go caller discards the
error and uses the value anyway. Invalid digits yield value 0; an
out-of-range magnitude yields the clamped extreme of int64, as strconv
documents. -/
def parseInt64 (s : String) : Int × Option ParseErr :=
  match stripSign s.toList with
  | (neg, ds) =>
    match decNat? ds with
    | none => (0, some ParseErr.invalidDigits)
    | some n =>
      if neg then
        if -(n : Int) < int64Min then (int64Min, some ParseErr.outOfRange)
        else (-(n : Int), none)
      else
        if (n : Int) > int64Max then (int64Max, some ParseErr.outOfRange)
        else ((n : Int), none)

/-- Decode of rule.go's priority helper: the sentinel default maps to 0;
otherwise strconv.ParseInt is called and its error is discarded (the
underscore in the Go source), so the accompanying value is returned as is. -/
def priority (s : String) : Int :=
  if s = "default" then 0 else (parseInt64 s).1

/-- Decimal digit characters of n, most significant first, as produced by
the fmt package for an integer verb. -/
def natToDecChars (n : Nat) : List Char :=
  if _h : n < 10 then [Nat.digitChar n]
  else natToDecChars (n / 10) ++ [Nat.digitChar (n % 10)]
decreasing_by exact Nat.div_lt_self (by omega) (by omega)

/-- Model of fmt.Sprintf with an integer argument: minimal decimal form
with a leading minus for negative values. -/
def formatInt (p : Int) : String :=
  if p < 0 then String.mk ('-' :: natToDecChars (-p).toNat)
  else String.mk (natToDecChars p.toNat)

/-- Priority encoding performed by NewRule: 0 becomes the sentinel default,
any other integer its decimal rendering. -/
def encodePriority (p : Int) : String :=
  if p = 0 then "default" else formatInt p

/-! ## Constructors -/

/-- NewRule: build a desired-intent Rule from priority, hostname, path and
service name. The action's target group is left unresolved; a condition is
appended for hostname and for path exactly when the argument is non-empty. -/
def NewRule (p : Int) (hostname path svcname : String) : Rule :=
  let conds : List RuleCondition :=
    (if hostname ≠ "" then [{ Field := "host-header", Values := [hostname] }] else []) ++
    (if path ≠ "" then [{ Field := "path-pattern", Values := [path] }] else [])
  { CurrentRule := none
    DesiredRule := some
      { RuleArn := none
        IsDefault := decide (p = 0)
        Priority := encodePriority p
        Conditions := conds
        Actions := [{ TargetGroupArn := none, ActionType := "forward" }] }
    svcName := svcname
    deleted := false }

/-- NewRuleFromAWSRule: build an observed Rule from a provider snapshot. -/
def NewRuleFromAWSRule (r : ELBV2Rule) : Rule :=
  { CurrentRule := some r
    DesiredRule := none
    svcName := ""
    deleted := false }

/-! ## Predicates -/

/-- Modelled from the spec: TargetGroups.LookupBySvc is defined in a file of
this repository that is not part of the given source; the spec describes it
as searching the ordered collection for a record whose associated service
name matches and returning its index, or a not-found marker. -/
def TargetGroups.LookupBySvc (tgs : TargetGroups) (svc : String) : Option Nat :=
  tgs.findIdx? (fun tg => tg.SvcName == svc)

/-- needsModification of rule.go. The Go function returns true when the
current snapshot is absent and otherwise compares the Prettify renderings of
the two condition lists, which agree exactly when the lists are structurally
equal; with current present and desired absent the Go code dereferences a
nil pointer and panics, modelled here as the none result. -/
def Rule.needsModification (r : Rule) : Option Bool :=
  match r.CurrentRule with
  | none => some true
  | some cr =>
    match r.DesiredRule with
    | none => none
    | some dr => some (decide (¬ cr.Conditions = dr.Conditions))

/-- CurrentEquals of rule.go: false when current is absent, otherwise
deep equality of priority and of the condition lists with the candidate. -/
def Rule.CurrentEquals (r : Rule) (target : ELBV2Rule) : Bool :=
  match r.CurrentRule with
  | none => false
  | some cr => cr.Priority == target.Priority && cr.Conditions == target.Conditions

/-! ## Effectful operations -/

/-- targetGroupArn of rule.go: prefer the already resolved identifier on the
current snapshot's first action; otherwise look the service up in the
collection, returning none (after an error-level log) when absent. An empty
Actions list on a present current snapshot would make the Go code panic on
the index; no reachable state in this development has one. -/
def Rule.targetGroupArn (r : Rule) (tgs : TargetGroups) : Option String :=
  let resolved : Option String :=
    match r.CurrentRule with
    | some cr => (cr.Actions.head?).bind (fun a => a.TargetGroupArn)
    | none => none
  match resolved with
  | some arn => some arn
  | none =>
    match TargetGroups.LookupBySvc tgs r.svcName with
    | none => none
    | some i => ((tgs.get? i).map (fun tg => tg.CurrentTargetGroup.TargetGroupArn)).join

/-- delete of rule.go: succeed without a call when current is absent or is
the default rule; otherwise issue one DeleteRule for the rule's identifier,
propagating a provider error unchanged with the deleted marker untouched and
setting the marker only on provider success. -/
def Rule.delete (r : Rule) (svc : AWSProvider) :
    Except String Unit × Rule × List ApiCall :=
  match r.CurrentRule with
  | none => (Except.ok (), r, [])
  | some cr =>
    if cr.IsDefault then (Except.ok (), r, [])
    else
      let input : DeleteRuleInput := { RuleArn := cr.RuleArn }
      match svc.deleteRule input with
      | Except.error e => (Except.error e, r, [ApiCall.deleteRule input])
      | Except.ok _ =>
        (Except.ok (), { r with deleted := true }, [ApiCall.deleteRule input])

/-- create of rule.go: build the CreateRule input from the desired snapshot,
overwrite the first action's target group with the resolution result (the
input aliases the desired snapshot's action slice in Go, so the desired
snapshot sees the same write), submit, and on success adopt the provider's
returned rule as current. The Go code dereferences a nil desired snapshot
and panics; that is modelled as an error value, and Reconcile never reaches
it. -/
def Rule.create (r : Rule) (svc : AWSProvider) (rOpts : ReconcileOptions)
    (l : Listener) : Except String Unit × Rule × List ApiCall :=
  match r.DesiredRule with
  | none => (Except.error "panic: nil DesiredRule dereference", r, [])
  | some dr =>
    let arn := r.targetGroupArn rOpts.loadbalancer.TargetGroups
    let inActions : List Action :=
      match dr.Actions with
      | [] => []
      | a :: rest => { a with TargetGroupArn := arn } :: rest
    let input : CreateRuleInput :=
      { Actions := inActions
        Conditions := dr.Conditions
        ListenerArn := l.CurrentListener.ListenerArn
        Priority := priority dr.Priority }
    let r' : Rule := { r with DesiredRule := some { dr with Actions := inActions } }
    match svc.createRule input with
    | Except.error e => (Except.error e, r', [ApiCall.createRule input])
    | Except.ok o =>
      (Except.ok (), { r' with CurrentRule := o.Rules.head? }, [ApiCall.createRule input])

/-- modify of rule.go: an unimplemented stub, no call, always succeeds. -/
def Rule.modify (r : Rule) (_rOpts : ReconcileOptions) :
    Except String Unit × Rule × List ApiCall :=
  (Except.ok (), r, [])

/-- Reconcile of rule.go: the five-way first-match-wins decision. Desired
absent: delete unless current is absent or default. Desired default: adopt
desired as current with no call. Current absent: create. Diff detected:
modify. Otherwise no-op. -/
def Rule.Reconcile (r : Rule) (svc : AWSProvider) (rOpts : ReconcileOptions)
    (l : Listener) : Except String Unit × Rule × List ApiCall :=
  match r.DesiredRule with
  | none =>
    match r.CurrentRule with
    | none => (Except.ok (), r, [])
    | some cr =>
      if cr.IsDefault then (Except.ok (), r, [])
      else
        let result := r.delete svc
        match result.1 with
        | Except.error e => (Except.error e, result.2.1, result.2.2)
        | Except.ok _ => (Except.ok (), result.2.1, result.2.2)
  | some dr =>
    if dr.IsDefault then (Except.ok (), { r with CurrentRule := some dr }, [])
    else
      match r.CurrentRule with
      | none =>
        let result := r.create svc rOpts l
        match result.1 with
        | Except.error e => (Except.error e, result.2.1, result.2.2)
        | Except.ok _ => (Except.ok (), result.2.1, result.2.2)
      | some _ =>
        match r.needsModification with
        | some true =>
          let result := r.modify rOpts
          match result.1 with
          | Except.error e => (Except.error e, result.2.1, result.2.2)
          | Except.ok _ => (Except.ok (), result.2.1, result.2.2)
        | _ => (Except.ok (), r, [])

/-! ## Concrete fixtures used by witnesses and counterexample evaluations -/

/-- A provider whose calls always succeed. -/
def provOk : AWSProvider :=
  { createRule := fun _ => Except.ok
      { Rules := [{ RuleArn := some "arn:created", IsDefault := false,
                    Priority := "3", Conditions := [], Actions := [] }] }
    deleteRule := fun _ => Except.ok () }

/-- A provider whose calls always fail. -/
def provFail : AWSProvider :=
  { createRule := fun _ => Except.error "provider rejected"
    deleteRule := fun _ => Except.error "provider rejected" }

/-- A concrete parent listener. -/
def lFix : Listener := { CurrentListener := { ListenerArn := some "arn:listener" } }

/-- Reconcile options over an empty target-group collection. -/
def optsEmpty : ReconcileOptions := { loadbalancer := { TargetGroups := [] } }

/-- A concrete non-default current snapshot. -/
def crDel : ELBV2Rule :=
  { RuleArn := some "arn:rule:1", IsDefault := false, Priority := "5",
    Conditions := [{ Field := "host-header", Values := ["example.com"] }],
    Actions := [] }

/-- A concrete default-rule snapshot. -/
def drDef : ELBV2Rule :=
  { RuleArn := none, IsDefault := true, Priority := "default",
    Conditions := [], Actions := [] }

/-- A delete-pending Rule: desired absent, current present and non-default. -/
def rDel : Rule :=
  { CurrentRule := some crDel, DesiredRule := none, svcName := "svc", deleted := false }

/-- A create-pending Rule whose service has no target-group record. -/
def rCreate : Rule :=
  { CurrentRule := none
    DesiredRule := some
      { RuleArn := none, IsDefault := false, Priority := "3",
        Conditions := [{ Field := "host-header", Values := ["example.com"] }],
        Actions := [{ TargetGroupArn := none, ActionType := "forward" }] }
    svcName := "svc-a"
    deleted := false }

/-! ## Claim theorems -/

/-- C5: when the desired snapshot is present and marked default, Reconcile
issues no provider API call (empty trace), succeeds, and copies the desired
snapshot into the current one. -/
theorem reconcile_default_desired_no_call (r : Rule) (svc : AWSProvider)
    (rOpts : ReconcileOptions) (l : Listener) (dr : ELBV2Rule)
    (hd : r.DesiredRule = some dr) (hdef : dr.IsDefault = true) :
    r.Reconcile svc rOpts l = (Except.ok (), { r with CurrentRule := some dr }, []) := by
  unfold Rule.Reconcile
  rw [hd]
  simp [hdef]

theorem reconcile_default_desired_no_call_witness :
    Rule.Reconcile
        { CurrentRule := none, DesiredRule := some drDef, svcName := "s", deleted := false }
        provOk optsEmpty lFix =
      (Except.ok (),
       { CurrentRule := some drDef, DesiredRule := some drDef, svcName := "s",
         deleted := false }, []) :=
  reconcile_default_desired_no_call _ provOk optsEmpty lFix drDef rfl rfl

/-- C6: when the desired snapshot is absent and the current one is absent or
is the default rule, Reconcile makes no call, leaves the Rule unchanged and
returns success. -/
theorem reconcile_absent_desired_noop (r : Rule) (svc : AWSProvider)
    (rOpts : ReconcileOptions) (l : Listener)
    (hd : r.DesiredRule = none)
    (hc : r.CurrentRule = none ∨ ∃ cr, r.CurrentRule = some cr ∧ cr.IsDefault = true) :
    r.Reconcile svc rOpts l = (Except.ok (), r, []) := by
  unfold Rule.Reconcile
  rw [hd]
  rcases hc with hc | ⟨cr, hc, hdef⟩
  · rw [hc]
  · rw [hc]
    simp [hdef]

theorem reconcile_absent_desired_noop_witness :
    Rule.Reconcile
        { CurrentRule := some drDef, DesiredRule := none, svcName := "s", deleted := false }
        provOk optsEmpty lFix =
      (Except.ok (),
       { CurrentRule := some drDef, DesiredRule := none, svcName := "s",
         deleted := false }, []) :=
  reconcile_absent_desired_noop _ provOk optsEmpty lFix rfl
    (Or.inr ⟨drDef, rfl, rfl⟩)

/-- C10: delete invoked directly on a Rule with no current snapshot returns
success, issues no provider call and leaves the Rule, its deleted marker
included, unchanged. -/
theorem delete_total_on_absent_current (r : Rule) (svc : AWSProvider)
    (hc : r.CurrentRule = none) :
    r.delete svc = (Except.ok (), r, []) := by
  unfold Rule.delete
  rw [hc]

theorem delete_total_on_absent_current_witness :
    Rule.delete
        { CurrentRule := none, DesiredRule := none, svcName := "s", deleted := false }
        provFail =
      (Except.ok (),
       { CurrentRule := none, DesiredRule := none, svcName := "s", deleted := false },
       []) :=
  delete_total_on_absent_current _ provFail rfl

/-- C7: needsModification is pure; it yields true whenever the current
snapshot is absent, and with both snapshots present it yields true exactly
when the condition lists differ and false exactly when they are equal, so
action and priority differences never make it true. -/
theorem needsModification_spec (r : Rule) :
    (r.CurrentRule = none → r.needsModification = some true) ∧
    (∀ cr dr, r.CurrentRule = some cr → r.DesiredRule = some dr →
      ((r.needsModification = some true ↔ ¬ cr.Conditions = dr.Conditions) ∧
       (r.needsModification = some false ↔ cr.Conditions = dr.Conditions))) := by
  unfold Rule.needsModification
  constructor
  · intro hc
    rw [hc]
  · intro cr dr hc hd
    rw [hc, hd]
    by_cases h : cr.Conditions = dr.Conditions <;> simp [h]

theorem needsModification_spec_witness :
    Rule.needsModification
        { CurrentRule := some crDel, DesiredRule := some drDef, svcName := "s",
          deleted := false } = some true ↔
      ¬ crDel.Conditions = drDef.Conditions :=
  ((needsModification_spec _).2 crDel drDef rfl rfl).1

/-- C8: CurrentEquals is false when the current snapshot is absent, and with
a current snapshot present it is true exactly when priority and the
condition lists both equal the candidate's. -/
theorem currentEquals_spec (r : Rule) (target : ELBV2Rule) :
    (r.CurrentRule = none → r.CurrentEquals target = false) ∧
    (∀ cr, r.CurrentRule = some cr →
      (r.CurrentEquals target = true ↔
        cr.Priority = target.Priority ∧ cr.Conditions = target.Conditions)) := by
  unfold Rule.CurrentEquals
  constructor
  · intro hc
    rw [hc]
  · intro cr hc
    rw [hc]
    simp

/-- Shape of delete on a present, non-default current snapshot: one
DeleteRule call for the rule's identifier, the error propagated unchanged
with the Rule untouched, the deleted marker set only on success. -/
theorem delete_nondefault_eq (r : Rule) (svc : AWSProvider) (cr : ELBV2Rule)
    (hc : r.CurrentRule = some cr) (hnd : cr.IsDefault = false) :
    r.delete svc =
      match svc.deleteRule { RuleArn := cr.RuleArn } with
      | Except.error e =>
          (Except.error e, r, [ApiCall.deleteRule { RuleArn := cr.RuleArn }])
      | Except.ok _ =>
          (Except.ok (), { r with deleted := true },
           [ApiCall.deleteRule { RuleArn := cr.RuleArn }]) := by
  unfold Rule.delete
  rw [hc]
  simp [hnd]

/-- C1: with desired absent and a non-default current snapshot, Reconcile
issues exactly one DeleteRule call carrying the rule's identifier; a
provider error is returned unchanged with the deleted marker still false,
and provider success sets the deleted marker. -/
theorem reconcile_deletes_nondefault_current (r : Rule) (svc : AWSProvider)
    (rOpts : ReconcileOptions) (l : Listener) (cr : ELBV2Rule)
    (hd : r.DesiredRule = none) (hc : r.CurrentRule = some cr)
    (hnd : cr.IsDefault = false) (hdel : r.deleted = false) :
    (r.Reconcile svc rOpts l).2.2 = [ApiCall.deleteRule { RuleArn := cr.RuleArn }] ∧
    (∀ e, svc.deleteRule { RuleArn := cr.RuleArn } = Except.error e →
      r.Reconcile svc rOpts l =
        (Except.error e, r, [ApiCall.deleteRule { RuleArn := cr.RuleArn }]) ∧
      ((r.Reconcile svc rOpts l).2.1).deleted = false) ∧
    (∀ u, svc.deleteRule { RuleArn := cr.RuleArn } = Except.ok u →
      r.Reconcile svc rOpts l =
        (Except.ok (), { r with deleted := true },
         [ApiCall.deleteRule { RuleArn := cr.RuleArn }])) := by
  have hrec : r.Reconcile svc rOpts l =
      match svc.deleteRule { RuleArn := cr.RuleArn } with
      | Except.error e =>
          (Except.error e, r, [ApiCall.deleteRule { RuleArn := cr.RuleArn }])
      | Except.ok _ =>
          (Except.ok (), { r with deleted := true },
           [ApiCall.deleteRule { RuleArn := cr.RuleArn }]) := by
    unfold Rule.Reconcile
    rw [hd, hc]
    simp only [hnd, Bool.false_eq_true, if_false]
    rw [delete_nondefault_eq r svc cr hc hnd]
    cases svc.deleteRule { RuleArn := cr.RuleArn } <;> simp [hc, hd]
  refine ⟨?_, ?_, ?_⟩
  · rw [hrec]
    cases svc.deleteRule { RuleArn := cr.RuleArn } <;> rfl
  · intro e he
    rw [hrec, he]
    exact ⟨rfl, hdel⟩
  · intro u hu
    rw [hrec, hu]

theorem reconcile_deletes_nondefault_current_witness :
    rDel.Reconcile provOk optsEmpty lFix =
      (Except.ok (), { rDel with deleted := true },
       [ApiCall.deleteRule { RuleArn := some "arn:rule:1" }]) :=
  (reconcile_deletes_nondefault_current rDel provOk optsEmpty lFix crDel
    rfl rfl rfl rfl).2.2 () rfl

/-- C2: the priority decoder maps a string that is neither the default
sentinel nor a well-formed integer to the value 0 with the parse error
discarded, rather than reporting the error to the caller: here the string
abc parses with an invalid-digits error, yet priority returns plain 0. -/
theorem priority_discards_parse_error :
    parseInt64 "abc" = (0, some ParseErr.invalidDigits) ∧ priority "abc" = 0 :=
  ⟨rfl, rfl⟩

/-- C3: on the create path with no resolved target group and no matching
record in the collection (here the collection is empty), create does not
halt: it submits the CreateRule request with an absent TargetGroupArn on
the forward action and reports the provider's success. -/
theorem create_submits_null_target_group :
    TargetGroups.LookupBySvc ([] : TargetGroups) "svc-a" = none ∧
    (rCreate.create provOk optsEmpty lFix).2.2 =
      [ApiCall.createRule
        { Actions := [{ TargetGroupArn := none, ActionType := "forward" }]
          Conditions := [{ Field := "host-header", Values := ["example.com"] }]
          ListenerArn := some "arn:listener"
          Priority := 3 }] ∧
    (rCreate.create provOk optsEmpty lFix).1 = Except.ok () :=
  ⟨rfl, rfl, rfl⟩

/-- C9: NewRule with priority 3, hostname example.com and path /api yields
the two conditions in host-then-path order, priority rendered as the string
3 and a non-default rule; priority 0 yields a default rule with the default
sentinel; and a condition is appended exactly for each non-empty hostname
or path argument. -/
theorem newRule_spec (svc hostname path : String) :
    ((NewRule 3 "example.com" "/api" svc).DesiredRule =
      some { RuleArn := none, IsDefault := false, Priority := "3",
             Conditions := [{ Field := "host-header", Values := ["example.com"] },
                            { Field := "path-pattern", Values := ["/api"] }],
             Actions := [{ TargetGroupArn := none, ActionType := "forward" }] }) ∧
    ((NewRule 0 hostname path svc).DesiredRule.map ELBV2Rule.IsDefault = some true) ∧
    ((NewRule 0 hostname path svc).DesiredRule.map ELBV2Rule.Priority = some "default") ∧
    (∀ p : Int, (NewRule p hostname path svc).DesiredRule.map ELBV2Rule.Conditions =
      some ((if hostname = "" then []
             else [{ Field := "host-header", Values := [hostname] }]) ++
            (if path = "" then []
             else [{ Field := "path-pattern", Values := [path] }]))) := by
  refine ⟨?_, rfl, rfl, ?_⟩
  · simp [NewRule, encodePriority, formatInt, natToDecChars, Nat.digitChar]
  · intro p
    by_cases hh : hostname = "" <;> by_cases hp : path = "" <;>
      simp [NewRule, hh, hp]

theorem currentEquals_spec_witness :
    Rule.CurrentEquals
        { CurrentRule := some crDel, DesiredRule := none, svcName := "s",
          deleted := false } crDel = true ↔
      crDel.Priority = crDel.Priority ∧ crDel.Conditions = crDel.Conditions :=
  (currentEquals_spec _ crDel).2 crDel rfl

/-! ## Decimal rendering and parsing round-trip -/

/-- Reading back the character of a decimal digit gives the digit. -/
theorem decDigitVal_digitChar : ∀ d, d < 10 →
    decDigitVal (Nat.digitChar d) = some d := by decide

/-- Decimal digit characters are not a sign character and not the letter
that opens the default sentinel. -/
theorem digitChar_not_special : ∀ d, d < 10 →
    Nat.digitChar d ≠ '-' ∧ Nat.digitChar d ≠ '+' ∧ Nat.digitChar d ≠ 'd' := by decide

/-- The decimal rendering starts with a digit character. -/
theorem natToDecChars_head (n : Nat) :
    ∃ d rest, d < 10 ∧ natToDecChars n = Nat.digitChar d :: rest := by
  induction n using Nat.strong_induction_on with
  | _ n ih =>
    rw [natToDecChars]
    by_cases h : n < 10
    · rw [dif_pos h]
      exact ⟨n, [], h, rfl⟩
    · rw [dif_neg h]
      obtain ⟨d, rest, hd, heq⟩ := ih (n / 10) (Nat.div_lt_self (by omega) (by omega))
      exact ⟨d, rest ++ [Nat.digitChar (n % 10)], hd, by rw [heq]; rfl⟩

/-- Folding the parse step over the decimal rendering of n accumulates n
shifted past any prior accumulator. -/
theorem parseSteps_natToDecChars (n : Nat) :
    ∀ a : Nat, List.foldl parseStep (some a) (natToDecChars n) =
      some (a * 10 ^ (natToDecChars n).length + n) := by
  induction n using Nat.strong_induction_on with
  | _ n ih =>
    intro a
    rw [natToDecChars]
    by_cases h : n < 10
    · rw [dif_pos h]
      simp only [List.foldl_cons, List.foldl_nil, List.length_singleton]
      simp [parseStep, decDigitVal_digitChar n h]
    · rw [dif_neg h]
      rw [List.foldl_append]
      rw [ih (n / 10) (Nat.div_lt_self (by omega) (by omega)) a]
      have h10 : n % 10 < 10 := Nat.mod_lt _ (by omega)
      simp only [List.foldl_cons, List.foldl_nil, List.length_append,
        List.length_singleton]
      simp only [parseStep, decDigitVal_digitChar _ h10, Option.some.injEq]
      have hdm : 10 * (n / 10) + n % 10 = n := Nat.div_add_mod n 10
      have hexp : (a * 10 ^ (natToDecChars (n / 10)).length + n / 10) * 10 + n % 10 =
          a * (10 ^ (natToDecChars (n / 10)).length * 10) +
            (10 * (n / 10) + n % 10) := by ring
      rw [hexp, hdm, ← pow_succ]

/-- Parsing the decimal rendering of n recovers n. -/
theorem decNat?_natToDecChars (n : Nat) : decNat? (natToDecChars n) = some n := by
  obtain ⟨d, rest, hd, heq⟩ := natToDecChars_head n
  unfold decNat?
  rw [heq]
  simp only [List.isEmpty_cons, Bool.false_eq_true, if_false]
  rw [← heq]
  simpa using parseSteps_natToDecChars n 0

/-- A digit-led character run keeps its head through sign stripping. -/
theorem stripSign_digit (d : Nat) (hd : d < 10) (rest : List Char) :
    stripSign (Nat.digitChar d :: rest) = (false, Nat.digitChar d :: rest) := by
  obtain ⟨h1, h2, _⟩ := digitChar_not_special d hd
  simp [stripSign, h1, h2]

/-- Parsing the rendered decimal of an in-range natural succeeds exactly. -/
theorem parseInt64_natToDecChars (n : Nat) (h : (n : Int) ≤ int64Max) :
    parseInt64 (String.mk (natToDecChars n)) = ((n : Int), none) := by
  obtain ⟨d, rest, hd, heq⟩ := natToDecChars_head n
  unfold parseInt64
  have htl : (String.mk (natToDecChars n)).toList = natToDecChars n := rfl
  rw [htl, heq, stripSign_digit d hd rest, ← heq]
  show (match decNat? (natToDecChars n) with
    | none => ((0 : Int), some ParseErr.invalidDigits)
    | some m =>
      if (m : Int) > int64Max then (int64Max, some ParseErr.outOfRange)
      else ((m : Int), none)) = ((n : Int), none)
  rw [decNat?_natToDecChars n]
  simp only []
  rw [if_neg (not_lt.mpr h)]

/-- The rendering of a positive integer is never the default sentinel. -/
theorem formatInt_ne_default (p : Int) (hp : 0 < p) : formatInt p ≠ "default" := by
  obtain ⟨d, rest, hd, heq⟩ := natToDecChars_head p.toNat
  unfold formatInt
  rw [if_neg (by omega : ¬ p < 0)]
  intro hcontra
  have hdata : natToDecChars p.toNat = "default".data := congrArg String.data hcontra
  have hdef : "default".data = ['d', 'e', 'f', 'a', 'u', 'l', 't'] := rfl
  rw [heq, hdef] at hdata
  simp only [List.cons.injEq] at hdata
  exact (digitChar_not_special d hd).2.2 hdata.1

/-- C4: decoding inverts encoding on every int64-representable priority at
least 1, the zero priority encodes to the default sentinel, and the default
sentinel decodes to zero. -/
theorem priority_codec_roundtrip (p : Int) (h1 : 1 ≤ p) (h2 : p ≤ int64Max) :
    priority (encodePriority p) = p ∧
    encodePriority 0 = "default" ∧ priority "default" = 0 := by
  refine ⟨?_, rfl, rfl⟩
  have hcast : (p.toNat : Int) = p := Int.toNat_of_nonneg (by omega)
  unfold encodePriority
  rw [if_neg (by omega : p ≠ 0)]
  unfold priority
  rw [if_neg (formatInt_ne_default p (by omega))]
  unfold formatInt
  rw [if_neg (by omega : ¬ p < 0)]
  rw [parseInt64_natToDecChars p.toNat (by rw [hcast]; exact h2)]
  exact hcast

theorem priority_codec_roundtrip_witness :
    priority (encodePriority 3) = 3 ∧
    encodePriority 0 = "default" ∧ priority "default" = 0 :=
  priority_codec_roundtrip 3 (by norm_num) (by norm_num [int64Max])

end alb
